import Mathlib

/-!
Verification of the SmartCampus Teachable-Machine scanner demo.

The JavaScript source is shallowly embedded:
* JS strings are sequences of UTF-16 code units, modelled as `List Nat`
  (ASCII model for `toLowerCase`: only the code points 65–90 are shifted).
* probabilities and `performance.now()` timestamps are modelled as `ℚ`;
* one invocation of the async method `TMScanner.loop` is the step function
  `TMScanner.loop` below; the `requestAnimationFrame` self-scheduling is the
  driver `TMScanner.runFrames`, which keeps feeding frames only while the
  previous iteration scheduled another one;
* a thrown JS `TypeError` (e.g. reading `.className` of `undefined`) is an
  `Except.error`;
* the demo flow (`startDemoFlow` and the handlers it installs) is the
  transition function `demoStep` over `DemoState`; uncaught exceptions of a
  handler are recorded in the `thrown` field of its output, after the
  mutations that precede the throwing statement have been applied.
-/

/-- A JavaScript string, as its sequence of UTF-16 code units. -/
abbrev JsString := List Nat

/-- Code units of a Lean string literal, for concrete test inputs. -/
def jsStr (s : String) : JsString := s.data.map Char.toNat

/-- Model of the JS whitespace class `\s` (ASCII part): space, tab, LF, VT,
FF, CR. Both `String.prototype.trim` and the regex `\s+` use this class. -/
def isJsWs (c : Nat) : Bool :=
  c == 32 || c == 9 || c == 10 || c == 11 || c == 12 || c == 13

/-- Model of `String.prototype.toLowerCase` on one code unit (ASCII range:
`A`–`Z`, i.e. 65–90, maps to 97–122; everything else is unchanged). -/
def jsToLower (c : Nat) : Nat :=
  if 65 ≤ c ∧ c ≤ 90 then c + 32 else c

/-- Model of `String.prototype.trim`: drop leading and trailing whitespace. -/
def trimChars (l : JsString) : JsString :=
  ((l.dropWhile isJsWs).reverse.dropWhile isJsWs).reverse

/-- Model of `.replace(/\s+/g, ' ')`: every maximal run of whitespace
becomes a single space (code unit 32). -/
def collapseWs : JsString → JsString
  | [] => []
  | [c] => if isJsWs c then [32] else [c]
  | a :: b :: rest =>
    if isJsWs a && isJsWs b then collapseWs (b :: rest)
    else (if isJsWs a then 32 else a) :: collapseWs (b :: rest)

/-- Source: `function normalizeName(s){ return (s || '').trim().toLowerCase().replace(/\s+/g, ' '); }`. -/
def normalizeName (s : JsString) : JsString :=
  collapseWs ((trimChars s).map jsToLower)

/-- One entry of the ranked list returned by `model.predict`. -/
structure Prediction where
  className : JsString
  probability : ℚ
deriving DecidableEq, Repr

/-- Stable insertion of one prediction into a descending-by-probability list:
the element is placed before the first entry whose probability is not
greater, which matches the stable `preds.sort((a, b) => b.probability - a.probability)`. -/
def insertPredDesc (p : Prediction) : List Prediction → List Prediction
  | [] => [p]
  | q :: qs => if p.probability < q.probability then q :: insertPredDesc p qs else p :: q :: qs

/-- Model of `preds.sort((a, b) => b.probability - a.probability)` (stable,
descending by probability). -/
def sortPredsDesc (l : List Prediction) : List Prediction :=
  l.foldr insertPredDesc []

/-- The top-ranked prediction of a frame: head of the stably sorted list
(`preds[0]` after the sort). -/
def topPrediction (preds : List Prediction) : Option Prediction :=
  (sortPredsDesc preds).head?

/-- Source field `this.lastTop = { name, since, prob }` of `TMScanner`. -/
structure LastTop where
  name : JsString
  since : ℚ
  prob : ℚ
deriving DecidableEq, Repr

/-- Argument of the `onLock` callback: `{ className, prob, timestamp }`. -/
structure LockInfo where
  className : JsString
  prob : ℚ
  timestamp : ℚ
deriving DecidableEq, Repr

/-- Runtime state of one `TMScanner` instance (the fields of the class that
the loop, `stop` and the lock logic read or write; `threshold` and
`stableWindowMs` are the configuration fields set in the constructor). -/
structure ScannerState where
  isRunning : Bool
  locked : Bool
  lastTop : Option LastTop
  webcamHeld : Bool
  pending : Bool
  threshold : ℚ
  stableWindowMs : ℚ
deriving DecidableEq, Repr

/-- Constructor default `this.threshold = 0.98`. -/
def defaultThreshold : ℚ := 98 / 100

/-- Constructor default `this.stableWindowMs = 1000`. -/
def defaultStableWindowMs : ℚ := 1000

/-- Scanner state right after a successful `start()` with configuration
`θ`, `W`: `isRunning = true`, `locked = false`, `lastTop = null`, webcam
playing, no animation frame scheduled yet (the first `loop()` call is
direct). -/
def TMScanner.startedState (θ W : ℚ) : ScannerState :=
  { isRunning := true, locked := false, lastTop := none,
    webcamHeld := true, pending := false, threshold := θ, stableWindowMs := W }

/-- Thrown JS exceptions that the embedding distinguishes. -/
inductive JsError
  | typeError
deriving DecidableEq, Repr

/-- Source `TMScanner.stop`: sets `isRunning = false`, cancels the pending
animation frame, and stops the webcam. The session no longer holds the
camera afterwards (a fresh `start()` always creates a new webcam). -/
def TMScanner.stopState (s : ScannerState) : ScannerState :=
  { s with isRunning := false, pending := false, webcamHeld := false }

/-- Model of one external call `this.webcam.stop()`, which may throw. -/
def webcamStopCall (throws : Bool) : Except JsError Unit :=
  if throws then Except.error JsError.typeError else Except.ok ()

/-- Source `TMScanner.stop` as executed: the `webcam.stop()` call is wrapped
in `try { ... } catch (e) {}`, so any exception it throws is swallowed and
`stop` itself always returns normally. -/
def TMScanner.stopRun (webcamStopThrows : Bool) (s : ScannerState) :
    Except JsError ScannerState :=
  let s1 : ScannerState := { s with isRunning := false, pending := false }
  if s1.webcamHeld then
    match webcamStopCall webcamStopThrows with
    | Except.ok _ => Except.ok { s1 with webcamHeld := false }
    | Except.error _ => Except.ok { s1 with webcamHeld := false }
  else
    Except.ok s1

/-- Observable outcome of one invocation of `TMScanner.loop`. -/
structure LoopOutcome where
  state : ScannerState
  lockEvent : Option LockInfo
  scheduledNext : Bool
  emittedUpdate : Bool
  inferenceErrorReported : Bool
deriving DecidableEq, Repr

/-- Outcome of the reset arm of the stability block:
`if (topProb >= this.threshold) this.lastTop = { name, since: now, prob };
else this.lastTop = null;`, followed by the `requestAnimationFrame`
rescheduling at the end of `loop`. -/
def TMScanner.resetOutcome (s : ScannerState) (top : Prediction) (now : ℚ) : LoopOutcome :=
  { state :=
      { s with
        lastTop :=
          if s.threshold ≤ top.probability then
            some { name := top.className, since := now, prob := top.probability }
          else none,
        pending := true },
    lockEvent := none, scheduledNext := true,
    emittedUpdate := true, inferenceErrorReported := false }

/-- One invocation of the async method `TMScanner.loop`, given the result of
the awaited `model.predict` call (`Except.error` when inference throws) and
the value of `performance.now()`. Transcribed from the source:
* `if (!this.isRunning) return;`
* the `try/catch` around `predict` reports the error and returns without
  scheduling another frame;
* `preds.sort(...)`, `const top = preds[0]; const topName = top.className;`
  — on an empty list `preds[0]` is `undefined` and reading `.className`
  throws a `TypeError`;
* the overlay updates (`emittedUpdate`);
* the stability / lock block:
  `if (!this.lastTop || this.lastTop.name !== topName || topProb < this.threshold)`
  takes the reset arm, otherwise
  `if (now - this.lastTop.since >= this.stableWindowMs)` locks
  (`locked = true; stop(); freezeOverlay; onLock({...}); return;`);
* `this.predLoopId = requestAnimationFrame(() => this.loop());`. -/
def TMScanner.loop (s : ScannerState) (predsRes : Except Unit (List Prediction))
    (now : ℚ) : Except JsError LoopOutcome :=
  if s.isRunning = false then
    Except.ok { state := s, lockEvent := none, scheduledNext := false,
                emittedUpdate := false, inferenceErrorReported := false }
  else
    match predsRes with
    | Except.error _ =>
      Except.ok { state := s, lockEvent := none, scheduledNext := false,
                  emittedUpdate := false, inferenceErrorReported := true }
    | Except.ok preds =>
      match topPrediction preds with
      | none => Except.error JsError.typeError
      | some top =>
        match s.lastTop with
        | none => Except.ok (TMScanner.resetOutcome s top now)
        | some lt =>
          if lt.name ≠ top.className ∨ top.probability < s.threshold then
            Except.ok (TMScanner.resetOutcome s top now)
          else if s.stableWindowMs ≤ now - lt.since then
            Except.ok
              { state := TMScanner.stopState { s with locked := true },
                lockEvent := some { className := top.className,
                                    prob := top.probability, timestamp := now },
                scheduledNext := false,
                emittedUpdate := true, inferenceErrorReported := false }
          else
            Except.ok
              { state := { s with pending := true },
                lockEvent := none, scheduledNext := true,
                emittedUpdate := true, inferenceErrorReported := false }

/-- One camera frame: the `performance.now()` timestamp of its loop
iteration and the prediction list `model.predict` returns for it. -/
abbrev Frame := ℚ × List Prediction

/-- The `requestAnimationFrame` driver: frames are processed while the
previous iteration scheduled another one; a thrown exception or a missing
reschedule ends the run. Returns the final scanner state and the list of
emitted lock events, in order. -/
def TMScanner.runFrames (s : ScannerState) : List Frame → ScannerState × List LockInfo
  | [] => (s, [])
  | (now, preds) :: rest =>
    match TMScanner.loop s (Except.ok preds) now with
    | Except.error _ => (s, [])
    | Except.ok out =>
      if out.scheduledNext then
        let r := TMScanner.runFrames out.state rest
        (r.1, out.lockEvent.toList ++ r.2)
      else
        (out.state, out.lockEvent.toList)

/-- Top-ranked class name of a frame of the stream, if any. -/
def frameTopLabel (frames : List Frame) (i : Nat) : Option JsString :=
  (frames[i]?).bind fun f => (topPrediction f.2).map Prediction.className

/-- Timestamp of the i-th frame of the stream (0 out of range). -/
def frameTime (frames : List Frame) (i : Nat) : ℚ :=
  ((frames[i]?).map Prod.fst).getD 0

/-- Phase of the demo flow: scanning (the step badges track progress) or the
verified terminal view shown by `goVerified`. -/
inductive DemoPhase
  | scanning
  | verified
deriving DecidableEq, Repr

/-- Global state of `startDemoFlow`: the two captured locks `lockedFace` and
`lockedId`, whether the two scanner objects `demoFaceScanner` and
`demoIdScanner` have been created (they start as `undefined` module-level
variables), and whether `goVerified` has switched to the verified view. -/
structure DemoState where
  phase : DemoPhase
  lockedFace : Option LockInfo
  lockedId : Option LockInfo
  faceScannerExists : Bool
  idScannerExists : Bool
deriving DecidableEq, Repr

/-- Events of the demo flow: the two `onLock` callbacks, the two
scan-again button handlers, the verify button handler, and a re-entry into
`startDemoFlow` itself. -/
inductive DemoEvent
  | startFlow
  | faceLocked (info : LockInfo)
  | idLocked (info : LockInfo)
  | faceScanAgain
  | idScanAgain
  | verifyClick
deriving DecidableEq, Repr

/-- Externally visible actions a demo-flow handler performs. -/
inductive DemoAction
  | startFaceScanner
  | startIdScanner
  | alertMismatch
  | showVerified (name : JsString)
  | statusBothRequired
deriving DecidableEq, Repr

/-- Result of one demo-flow handler invocation: the state after all the
mutations the handler performed, the external actions it took, and the
uncaught exception it threw, if any (mutations preceding the throwing
statement are retained, as JS global mutations are). -/
structure DemoStepOut where
  state : DemoState
  actions : List DemoAction
  thrown : Option JsError
deriving DecidableEq, Repr

/-- State at the first entry of `startDemoFlow` on a fresh page:
`lockedFace = lockedId = null`, the face scanner has just been created and
started, `demoIdScanner` is still `undefined`. -/
def demoInit : DemoState :=
  { phase := .scanning, lockedFace := none, lockedId := none,
    faceScannerExists := true, idScannerExists := false }

/-- Transition function of the demo flow, transcribed from the handlers in
`startDemoFlow`:
* `startFlow`: `lockedFace = null; lockedId = null;` stop previous
  scanners, create and start the face scanner (the id scanner object, if
  any, is stopped but stays assigned);
* `faceLocked` (face `onLock`): `lockedFace = info;` create and start the
  id scanner;
* `idLocked` (id `onLock`): `lockedId = idInfo;`
* `faceScanAgain`: `lockedFace = null; lockedId = null;` restart the face
  scanner;
* `idScanAgain`: `lockedId = null;` then `demoIdScanner.start()` — a
  `TypeError` if `demoIdScanner` is still `undefined`;
* `verifyClick`: `if (!lockedFace || !lockedId) { status; return; }`
  then compare `normalizeName` of both class names; on success call
  `goVerified(faceName)` (switches to the verified view), otherwise alert
  a mismatch, `lockedId = null`, and `demoIdScanner.start()`. -/
def demoStep (s : DemoState) : DemoEvent → DemoStepOut
  | .startFlow =>
    { state := { s with phase := .scanning, lockedFace := none, lockedId := none,
                        faceScannerExists := true },
      actions := [DemoAction.startFaceScanner], thrown := none }
  | .faceLocked info =>
    { state := { s with lockedFace := some info, idScannerExists := true },
      actions := [DemoAction.startIdScanner], thrown := none }
  | .idLocked info =>
    { state := { s with lockedId := some info }, actions := [], thrown := none }
  | .faceScanAgain =>
    { state := { s with lockedFace := none, lockedId := none },
      actions := [DemoAction.startFaceScanner], thrown := none }
  | .idScanAgain =>
    if s.idScannerExists then
      { state := { s with lockedId := none },
        actions := [DemoAction.startIdScanner], thrown := none }
    else
      { state := { s with lockedId := none },
        actions := [], thrown := some JsError.typeError }
  | .verifyClick =>
    match s.lockedFace, s.lockedId with
    | some f, some i =>
      let faceName := normalizeName f.className
      let idName := normalizeName i.className
      if faceName ≠ [] ∧ idName ≠ [] ∧ faceName = idName then
        { state := { s with phase := .verified },
          actions := [DemoAction.showVerified faceName], thrown := none }
      else
        if s.idScannerExists then
          { state := { s with lockedId := none },
            actions := [DemoAction.alertMismatch, DemoAction.startIdScanner],
            thrown := none }
        else
          { state := { s with lockedId := none },
            actions := [DemoAction.alertMismatch],
            thrown := some JsError.typeError }
    | _, _ =>
      { state := s, actions := [DemoAction.statusBothRequired], thrown := none }

/-- Helper: inserting into the sorted list never yields the empty list. -/
theorem insertPredDesc_ne_nil (p : Prediction) (l : List Prediction) :
    insertPredDesc p l ≠ [] := by
  cases l with
  | nil => simp [insertPredDesc]
  | cons q qs => simp only [insertPredDesc]; split <;> simp

/-- Helper: a non-empty prediction list has a top-ranked entry
(`preds[0]` exists after the sort). -/
theorem topPrediction_isSome_of_ne_nil (preds : List Prediction) (h : preds ≠ []) :
    (topPrediction preds).isSome := by
  cases preds with
  | nil => exact absurd rfl h
  | cons p ps =>
    have hne : insertPredDesc p (List.foldr insertPredDesc [] ps) ≠ [] :=
      insertPredDesc_ne_nil _ _
    unfold topPrediction sortPredsDesc
    simp only [List.foldr_cons]
    cases hins : insertPredDesc p (List.foldr insertPredDesc [] ps) with
    | nil => exact absurd hins hne
    | cons a l => simp

/-- Equation lemma: a stopped scanner's `loop` returns immediately —
no decision, no update, no rescheduling, state unchanged. -/
theorem TMScanner.loop_not_running (s : ScannerState) (predsRes : Except Unit (List Prediction))
    (now : ℚ) (h : s.isRunning = false) :
    TMScanner.loop s predsRes now =
      Except.ok { state := s, lockEvent := none, scheduledNext := false,
                  emittedUpdate := false, inferenceErrorReported := false } := by
  unfold TMScanner.loop
  rw [h]
  simp

/-- Equation lemma: with no current candidate, `loop` takes the reset arm. -/
theorem TMScanner.loop_reset_of_none (s : ScannerState) (preds : List Prediction)
    (now : ℚ) (top : Prediction)
    (hrun : s.isRunning = true) (htop : topPrediction preds = some top)
    (hlt : s.lastTop = none) :
    TMScanner.loop s (Except.ok preds) now = Except.ok (TMScanner.resetOutcome s top now) := by
  unfold TMScanner.loop
  rw [hrun, hlt]
  simp [htop]

/-- Equation lemma: when the top label changed or its probability is below
threshold, `loop` takes the reset arm. -/
theorem TMScanner.loop_reset_of_changed (s : ScannerState) (preds : List Prediction)
    (now : ℚ) (top : Prediction) (lt : LastTop)
    (hrun : s.isRunning = true) (htop : topPrediction preds = some top)
    (hlt : s.lastTop = some lt)
    (hch : lt.name ≠ top.className ∨ top.probability < s.threshold) :
    TMScanner.loop s (Except.ok preds) now = Except.ok (TMScanner.resetOutcome s top now) := by
  unfold TMScanner.loop
  rw [hrun, hlt]
  simp only [Bool.true_eq_false, if_false, htop]
  rw [if_pos hch]

/-- Equation lemma: same candidate label at or above threshold with the
stability window elapsed — `loop` locks, stops the scanner, and does not
reschedule. -/
theorem TMScanner.loop_lock (s : ScannerState) (preds : List Prediction)
    (now : ℚ) (top : Prediction) (lt : LastTop)
    (hrun : s.isRunning = true) (htop : topPrediction preds = some top)
    (hlt : s.lastTop = some lt)
    (hsame : lt.name = top.className) (hprob : s.threshold ≤ top.probability)
    (hwin : s.stableWindowMs ≤ now - lt.since) :
    TMScanner.loop s (Except.ok preds) now =
      Except.ok
        { state := TMScanner.stopState { s with locked := true },
          lockEvent := some { className := top.className,
                              prob := top.probability, timestamp := now },
          scheduledNext := false, emittedUpdate := true, inferenceErrorReported := false } := by
  have hcond : ¬ (lt.name ≠ top.className ∨ top.probability < s.threshold) := by
    push_neg
    exact ⟨hsame, hprob⟩
  unfold TMScanner.loop
  rw [hrun, hlt]
  simp only [Bool.true_eq_false, if_false, htop]
  rw [if_neg hcond, if_pos hwin]

/-- Equation lemma: same candidate label at or above threshold with the
window not yet elapsed — `loop` continues with `lastTop` unchanged. -/
theorem TMScanner.loop_continue (s : ScannerState) (preds : List Prediction)
    (now : ℚ) (top : Prediction) (lt : LastTop)
    (hrun : s.isRunning = true) (htop : topPrediction preds = some top)
    (hlt : s.lastTop = some lt)
    (hsame : lt.name = top.className) (hprob : s.threshold ≤ top.probability)
    (hwin : ¬ s.stableWindowMs ≤ now - lt.since) :
    TMScanner.loop s (Except.ok preds) now =
      Except.ok
        { state := { s with pending := true },
          lockEvent := none, scheduledNext := true,
          emittedUpdate := true, inferenceErrorReported := false } := by
  have hcond : ¬ (lt.name ≠ top.className ∨ top.probability < s.threshold) := by
    push_neg
    exact ⟨hsame, hprob⟩
  unfold TMScanner.loop
  rw [hrun, hlt]
  simp only [Bool.true_eq_false, if_false, htop]
  rw [if_neg hcond, if_neg hwin]

/-- C7: `stop()` is idempotent and safe from any state: it always returns
normally (even when the inner `webcam.stop()` throws, the `try/catch`
swallows it), the resulting state is Idle (not running, no pending
animation frame, camera released), and a second `stop` changes nothing. -/
theorem stop_idempotent_safe (webcamStopThrows : Bool) (s : ScannerState) :
    TMScanner.stopRun webcamStopThrows s = Except.ok (TMScanner.stopState s) ∧
    (TMScanner.stopState s).isRunning = false ∧
    (TMScanner.stopState s).pending = false ∧
    (TMScanner.stopState s).webcamHeld = false ∧
    TMScanner.stopState (TMScanner.stopState s) = TMScanner.stopState s := by
  refine ⟨?_, rfl, rfl, rfl, rfl⟩
  unfold TMScanner.stopRun webcamStopCall TMScanner.stopState
  cases webcamStopThrows <;> cases s <;> rename_i held _ _ <;> cases held <;> simp

/-- C10: on an evaluation call that establishes or re-establishes the
candidate label (no previous candidate, a different label, or probability
below threshold), the engine never emits a `Lock`: the reset arm runs, the
streak start `since` is set to the current time, and the decision is
Continue — so even with `stableWindowMs = 0` a lock needs a later call. -/
theorem no_lock_on_establishing_call (s : ScannerState) (preds : List Prediction)
    (now : ℚ) (top : Prediction)
    (hrun : s.isRunning = true)
    (htop : topPrediction preds = some top)
    (hestab : s.lastTop = none ∨
      ∀ lt, s.lastTop = some lt → lt.name ≠ top.className ∨ top.probability < s.threshold) :
    TMScanner.loop s (Except.ok preds) now = Except.ok (TMScanner.resetOutcome s top now) ∧
    (TMScanner.resetOutcome s top now).lockEvent = none ∧
    (TMScanner.resetOutcome s top now).scheduledNext = true ∧
    ∀ lt, (TMScanner.resetOutcome s top now).state.lastTop = some lt → lt.since = now := by
  refine ⟨?_, rfl, rfl, ?_⟩
  · cases hlt : s.lastTop with
    | none => exact TMScanner.loop_reset_of_none s preds now top hrun htop hlt
    | some lt =>
      rcases hestab with hnone | hcase
      · rw [hnone] at hlt; exact Option.noConfusion hlt
      · exact TMScanner.loop_reset_of_changed s preds now top lt hrun htop hlt (hcase lt hlt)
  · intro lt hlt
    unfold TMScanner.resetOutcome at hlt
    simp only at hlt
    split at hlt
    · cases hlt; rfl
    · cases hlt

/-- C3 counterexample: with a freshly started scanner, an inference failure
makes `loop` return without scheduling another animation frame — the
frame-processing cycle does not continue and there is no retry on the next
frame, contrary to the claim. -/
theorem inference_error_no_retry_cex :
    TMScanner.loop (TMScanner.startedState defaultThreshold defaultStableWindowMs)
        (Except.error ()) 0 =
      Except.ok { state := TMScanner.startedState defaultThreshold defaultStableWindowMs,
                  lockEvent := none, scheduledNext := false,
                  emittedUpdate := false, inferenceErrorReported := true } ∧
    ((TMScanner.loop (TMScanner.startedState defaultThreshold defaultStableWindowMs)
        (Except.error ()) 0).toOption.map LoopOutcome.scheduledNext) = some false ∧
    ((TMScanner.loop (TMScanner.startedState defaultThreshold defaultStableWindowMs)
        (Except.error ()) 0).toOption.map LoopOutcome.scheduledNext) ≠ some true := by
  refine ⟨rfl, rfl, ?_⟩
  intro h
  have h2 : (some false : Option Bool) = some true := h
  cases h2

/-- C3 amended: when inference fails during a running session, the error is
reported and the session is not stopped (the state, including `isRunning`
and the held camera, is unchanged and no lock is emitted), but the loop
returns without scheduling another frame — frame processing halts instead
of retrying on the next frame. -/
theorem inference_error_reported_no_reschedule (s : ScannerState) (now : ℚ)
    (hrun : s.isRunning = true) :
    TMScanner.loop s (Except.error ()) now =
      Except.ok { state := s, lockEvent := none, scheduledNext := false,
                  emittedUpdate := false, inferenceErrorReported := true } := by
  unfold TMScanner.loop
  rw [hrun]
  simp

/-- Witness for `inference_error_reported_no_reschedule` at a freshly
started scanner with the default configuration. -/
theorem inference_error_reported_no_reschedule_witness :
    TMScanner.loop (TMScanner.startedState defaultThreshold defaultStableWindowMs)
        (Except.error ()) 0 =
      Except.ok { state := TMScanner.startedState defaultThreshold defaultStableWindowMs,
                  lockEvent := none, scheduledNext := false,
                  emittedUpdate := false, inferenceErrorReported := true } :=
  inference_error_reported_no_reschedule
    (TMScanner.startedState defaultThreshold defaultStableWindowMs) 0 rfl

/-- C4 counterexample: on an empty prediction list the per-frame evaluation
does not return Continue — it throws (reading `.className` of
`preds[0] === undefined`), so the evaluation is not total on empty input. -/
theorem empty_predictions_cex :
    TMScanner.loop (TMScanner.startedState defaultThreshold defaultStableWindowMs)
        (Except.ok []) 0 = Except.error JsError.typeError ∧
    (TMScanner.loop (TMScanner.startedState defaultThreshold defaultStableWindowMs)
        (Except.ok []) 0).toOption = none :=
  ⟨rfl, rfl⟩

/-- C4 amended: a running session's per-frame evaluation throws a
`TypeError` on the empty prediction list (no reset, no Continue), and it is
total — returns normally — exactly on non-empty prediction lists. -/
theorem empty_predictions_throw_nonempty_total (s : ScannerState) (now : ℚ)
    (hrun : s.isRunning = true) :
    TMScanner.loop s (Except.ok []) now = Except.error JsError.typeError ∧
    ∀ preds : List Prediction, preds ≠ [] →
      ∃ out, TMScanner.loop s (Except.ok preds) now = Except.ok out := by
  constructor
  · unfold TMScanner.loop
    rw [hrun]
    simp [topPrediction, sortPredsDesc]
  · intro preds hne
    obtain ⟨top, htop⟩ := Option.isSome_iff_exists.mp (topPrediction_isSome_of_ne_nil preds hne)
    cases hlt : s.lastTop with
    | none => exact ⟨_, TMScanner.loop_reset_of_none s preds now top hrun htop hlt⟩
    | some lt =>
      by_cases hr : lt.name ≠ top.className ∨ top.probability < s.threshold
      · exact ⟨_, TMScanner.loop_reset_of_changed s preds now top lt hrun htop hlt hr⟩
      · push_neg at hr
        by_cases hw : s.stableWindowMs ≤ now - lt.since
        · exact ⟨_, TMScanner.loop_lock s preds now top lt hrun htop hlt hr.1 hr.2 hw⟩
        · exact ⟨_, TMScanner.loop_continue s preds now top lt hrun htop hlt hr.1 hr.2 hw⟩

/-- Witness for `empty_predictions_throw_nonempty_total` at a freshly
started scanner: empty input throws, a singleton input returns normally. -/
theorem empty_predictions_throw_nonempty_total_witness :
    TMScanner.loop (TMScanner.startedState defaultThreshold defaultStableWindowMs)
        (Except.ok []) 0 = Except.error JsError.typeError ∧
    ∀ preds : List Prediction, preds ≠ [] →
      ∃ out, TMScanner.loop (TMScanner.startedState defaultThreshold defaultStableWindowMs)
        (Except.ok preds) 0 = Except.ok out :=
  empty_predictions_throw_nonempty_total
    (TMScanner.startedState defaultThreshold defaultStableWindowMs) 0 rfl

/-- C2: the Verified view is reachable only through the verify-button
handler, and only when both locks are present and their normalized labels
are equal and non-empty; no other demo-flow transition enters Verified. -/
theorem verified_only_via_verify (s : DemoState) (e : DemoEvent)
    (h : (demoStep s e).state.phase = DemoPhase.verified) :
    s.phase = DemoPhase.verified ∨
      (e = DemoEvent.verifyClick ∧
        ∃ f i, s.lockedFace = some f ∧ s.lockedId = some i ∧
          normalizeName f.className ≠ [] ∧ normalizeName i.className ≠ [] ∧
          normalizeName f.className = normalizeName i.className) := by
  cases e with
  | startFlow => simp [demoStep] at h
  | faceLocked info => simp [demoStep] at h; exact Or.inl h
  | idLocked info => simp [demoStep] at h; exact Or.inl h
  | faceScanAgain => simp [demoStep] at h; exact Or.inl h
  | idScanAgain =>
    unfold demoStep at h
    by_cases hex : s.idScannerExists = true <;> simp [hex] at h <;> exact Or.inl h
  | verifyClick =>
    unfold demoStep at h
    cases hf : s.lockedFace with
    | none => rw [hf] at h; simp at h; exact Or.inl h
    | some f =>
      cases hi : s.lockedId with
      | none => rw [hf, hi] at h; simp at h; exact Or.inl h
      | some i =>
        rw [hf, hi] at h
        by_cases hcond : normalizeName f.className ≠ [] ∧ normalizeName i.className ≠ [] ∧
            normalizeName f.className = normalizeName i.className
        · exact Or.inr ⟨rfl, f, i, rfl, rfl, hcond.1, hcond.2.1, hcond.2.2⟩
        · by_cases hex : s.idScannerExists = true <;>
            simp [hcond, hex] at h <;> exact Or.inl h

/-- Witness for `verified_only_via_verify`: a state with two locks on the
label sequence for the single letter a entering Verified on verify. -/
theorem verified_only_via_verify_witness :
    ({ phase := DemoPhase.scanning, lockedFace := some { className := [97], prob := 1, timestamp := 0 },
       lockedId := some { className := [97], prob := 1, timestamp := 0 },
       faceScannerExists := true, idScannerExists := true } : DemoState).phase
        = DemoPhase.verified ∨
      (DemoEvent.verifyClick = DemoEvent.verifyClick ∧
        ∃ f i,
          ({ phase := DemoPhase.scanning, lockedFace := some { className := [97], prob := 1, timestamp := 0 },
             lockedId := some { className := [97], prob := 1, timestamp := 0 },
             faceScannerExists := true, idScannerExists := true } : DemoState).lockedFace = some f ∧
          ({ phase := DemoPhase.scanning, lockedFace := some { className := [97], prob := 1, timestamp := 0 },
             lockedId := some { className := [97], prob := 1, timestamp := 0 },
             faceScannerExists := true, idScannerExists := true } : DemoState).lockedId = some i ∧
          normalizeName f.className ≠ [] ∧ normalizeName i.className ≠ [] ∧
          normalizeName f.className = normalizeName i.className) :=
  verified_only_via_verify
    { phase := DemoPhase.scanning, lockedFace := some { className := [97], prob := 1, timestamp := 0 },
      lockedId := some { className := [97], prob := 1, timestamp := 0 },
      faceScannerExists := true, idScannerExists := true }
    DemoEvent.verifyClick (by decide)

/-- C6: verify with both locks present but normalized labels unequal or
empty alerts a mismatch, clears `lockedId`, and restarts the id scanner,
leaving `lockedFace` and the phase untouched. -/
theorem verify_mismatch_effect (s : DemoState) (f i : LockInfo)
    (hf : s.lockedFace = some f) (hi : s.lockedId = some i)
    (hex : s.idScannerExists = true)
    (hne : ¬ (normalizeName f.className ≠ [] ∧ normalizeName i.className ≠ [] ∧
              normalizeName f.className = normalizeName i.className)) :
    demoStep s DemoEvent.verifyClick =
      { state := { s with lockedId := none },
        actions := [DemoAction.alertMismatch, DemoAction.startIdScanner],
        thrown := none } ∧
    (demoStep s DemoEvent.verifyClick).state.lockedFace = s.lockedFace ∧
    (demoStep s DemoEvent.verifyClick).state.phase = s.phase := by
  have hstep : demoStep s DemoEvent.verifyClick =
      { state := { s with lockedId := none },
        actions := [DemoAction.alertMismatch, DemoAction.startIdScanner],
        thrown := none } := by
    unfold demoStep
    rw [hf, hi]
    simp only
    rw [if_neg hne, if_pos hex]
  exact ⟨hstep, by rw [hstep], by rw [hstep]⟩

/-- Witness for `verify_mismatch_effect`: locks with labels a and b. -/
theorem verify_mismatch_effect_witness :
    demoStep
        { phase := DemoPhase.scanning,
          lockedFace := some { className := [97], prob := 1, timestamp := 0 },
          lockedId := some { className := [98], prob := 1, timestamp := 0 },
          faceScannerExists := true, idScannerExists := true }
        DemoEvent.verifyClick =
      { state := { phase := DemoPhase.scanning,
                   lockedFace := some { className := [97], prob := 1, timestamp := 0 },
                   lockedId := none,
                   faceScannerExists := true, idScannerExists := true },
        actions := [DemoAction.alertMismatch, DemoAction.startIdScanner],
        thrown := none } :=
  (verify_mismatch_effect
    { phase := DemoPhase.scanning,
      lockedFace := some { className := [97], prob := 1, timestamp := 0 },
      lockedId := some { className := [98], prob := 1, timestamp := 0 },
      faceScannerExists := true, idScannerExists := true }
    { className := [97], prob := 1, timestamp := 0 }
    { className := [98], prob := 1, timestamp := 0 }
    rfl rfl rfl (by decide)).1

/-- C8 counterexample: on the first run, before any face lock
(`lockedFace = none`, the demo is in its awaiting-first-lock stage), the
id scan-again handler is not a no-op and throws a `TypeError`
(`demoIdScanner` is still `undefined`), contrary to the claim that it must
not crash. -/
theorem restart_second_awaiting_first_cex :
    (demoStep demoInit DemoEvent.idScanAgain).thrown = some JsError.typeError ∧
    demoInit.lockedFace = none ∧
    ¬ (demoStep demoInit DemoEvent.idScanAgain).thrown = none := by
  refine ⟨rfl, rfl, ?_⟩
  intro h
  cases h

/-- C8 amended: while the second scanner object has not yet been created
(as is the case before the first face lock of the first run), the id
scan-again handler clears `lockedId`, starts nothing, and then throws a
`TypeError`; there is no guard or explicit precondition check. -/
theorem restart_second_before_creation_throws (s : DemoState)
    (h : s.idScannerExists = false) :
    demoStep s DemoEvent.idScanAgain =
      { state := { s with lockedId := none }, actions := [],
        thrown := some JsError.typeError } := by
  unfold demoStep
  rw [h]
  simp

/-- Witness for `restart_second_before_creation_throws` at the initial
demo-flow state. -/
theorem restart_second_before_creation_throws_witness :
    demoStep demoInit DemoEvent.idScanAgain =
      { state := { demoInit with lockedId := none }, actions := [],
        thrown := some JsError.typeError } :=
  restart_second_before_creation_throws demoInit rfl

/-- Helper: code points 33 and above are not JS whitespace. -/
theorem isJsWs_eq_false_of_ge (c : Nat) (h : 33 ≤ c) : isJsWs c = false := by
  simp only [isJsWs, Bool.or_eq_false_iff, beq_eq_false_iff_ne, ne_eq]
  omega

/-- Helper: lowercasing is idempotent on code points. -/
theorem jsToLower_jsToLower (c : Nat) : jsToLower (jsToLower c) = jsToLower c := by
  simp only [jsToLower]
  split
  · split <;> omega
  · rfl

/-- Helper: lowercasing does not change whether a code point is whitespace. -/
theorem isJsWs_jsToLower (c : Nat) : isJsWs (jsToLower c) = isJsWs c := by
  unfold jsToLower
  split
  · rename_i h
    rw [isJsWs_eq_false_of_ge (c + 32) (by omega), isJsWs_eq_false_of_ge c (by omega)]
  · rfl

/-- Helper: the head of `dropWhile isJsWs` is not whitespace. -/
theorem head_dropWhile_ws_false (l : JsString) (h : Nat)
    (hh : (l.dropWhile isJsWs).head? = some h) : isJsWs h = false := by
  induction l with
  | nil => cases hh
  | cons a t ih =>
    rw [List.dropWhile_cons] at hh
    split at hh
    · exact ih hh
    · rename_i hws
      simp only [List.head?_cons, Option.some.injEq] at hh
      subst hh
      simp only [Bool.not_eq_true] at hws
      exact hws

/-- Helper: a non-empty `dropWhile` result ends where the list ends. -/
theorem getLast_dropWhile_of_ne_nil (p : Nat → Bool) (l : JsString)
    (hne : l.dropWhile p ≠ []) : (l.dropWhile p).getLast? = l.getLast? := by
  obtain ⟨t, ht⟩ := List.dropWhile_suffix p (l := l)
  conv_rhs => rw [← ht]
  rw [List.getLast?_append]
  cases hd : (l.dropWhile p).getLast? with
  | none => exact absurd (List.getLast?_eq_none_iff.mp hd) hne
  | some x => rfl

/-- Helper: the first character of a trimmed string is not whitespace. -/
theorem trimChars_head_not_ws (l : JsString) (h : Nat)
    (hh : (trimChars l).head? = some h) : isJsWs h = false := by
  unfold trimChars at hh
  rw [List.head?_reverse] at hh
  by_cases hq : (l.dropWhile isJsWs).reverse.dropWhile isJsWs = []
  · rw [hq] at hh; cases hh
  · rw [getLast_dropWhile_of_ne_nil _ _ hq, List.getLast?_reverse] at hh
    exact head_dropWhile_ws_false _ _ hh

/-- Helper: the last character of a trimmed string is not whitespace. -/
theorem trimChars_getLast_not_ws (l : JsString) (h : Nat)
    (hh : (trimChars l).getLast? = some h) : isJsWs h = false := by
  unfold trimChars at hh
  rw [List.getLast?_reverse] at hh
  exact head_dropWhile_ws_false _ _ hh

/-- Helper: `dropWhile` is the identity when the head fails the predicate. -/
theorem dropWhile_eq_self_of_head (p : Nat → Bool) (l : JsString)
    (hl : ∀ h, l.head? = some h → p h = false) : l.dropWhile p = l := by
  cases l with
  | nil => rfl
  | cons a t =>
    have := hl a rfl
    rw [List.dropWhile_cons_of_neg (by simp [this])]

/-- Helper: trimming is the identity on strings without whitespace at
either end. -/
theorem trimChars_eq_self (l : JsString)
    (h1 : ∀ h, l.head? = some h → isJsWs h = false)
    (h2 : ∀ h, l.getLast? = some h → isJsWs h = false) : trimChars l = l := by
  unfold trimChars
  rw [dropWhile_eq_self_of_head _ _ h1]
  rw [dropWhile_eq_self_of_head]
  · exact List.reverse_reverse l
  · intro h hh
    rw [List.head?_reverse] at hh
    exact h2 h hh

/-- Helper: collapsing never produces the empty string from a non-empty one. -/
theorem collapseWs_ne_nil (l : JsString) (h : l ≠ []) : collapseWs l ≠ [] := by
  induction l with
  | nil => exact absurd rfl h
  | cons a t ih =>
    cases t with
    | nil =>
      unfold collapseWs
      split <;> simp
    | cons b rest =>
      unfold collapseWs
      split
      · exact ih (List.cons_ne_nil b rest)
      · simp

/-- Helper: every character of the collapsed string is a space or comes
from the input. -/
theorem mem_collapseWs (l : JsString) (c : Nat) (hc : c ∈ collapseWs l) :
    c = 32 ∨ c ∈ l := by
  induction l with
  | nil => cases hc
  | cons a t ih =>
    cases t with
    | nil =>
      unfold collapseWs at hc
      split at hc
      · simp at hc; exact Or.inl hc
      · simp at hc; exact Or.inr (by simp [hc])
    | cons b rest =>
      unfold collapseWs at hc
      split at hc
      · rcases ih hc with h32 | hmem
        · exact Or.inl h32
        · exact Or.inr (List.mem_cons_of_mem a hmem)
      · rcases List.mem_cons.mp hc with hx | hmem
        · subst hx
          split
          · exact Or.inl rfl
          · exact Or.inr (List.mem_cons_self a (b :: rest))
        · rcases ih hmem with h32 | hmem2
          · exact Or.inl h32
          · exact Or.inr (List.mem_cons_of_mem a hmem2)

/-- Helper: every whitespace character of the collapsed string is exactly
the space (code unit 32). -/
theorem collapseWs_ws_eq_32 (l : JsString) (c : Nat) (hc : c ∈ collapseWs l)
    (hws : isJsWs c = true) : c = 32 := by
  induction l with
  | nil => cases hc
  | cons a t ih =>
    cases t with
    | nil =>
      unfold collapseWs at hc
      split at hc
      · simpa using hc
      · rename_i hwa
        simp at hc
        subst hc
        simp only [Bool.not_eq_true] at hwa
        rw [hwa] at hws
        cases hws
    | cons b rest =>
      unfold collapseWs at hc
      split at hc
      · exact ih hc
      · rcases List.mem_cons.mp hc with hx | hmem
        · subst hx
          by_cases hwa : isJsWs a = true
          · rw [if_pos hwa]
          · rw [if_neg hwa] at hws
            exact absurd hws hwa
        · exact ih hmem

/-- Helper: collapsing a string whose first character is not whitespace
keeps that first character. -/
theorem head_collapseWs_of_not_ws (b : Nat) (rest : JsString)
    (hb : isJsWs b = false) : (collapseWs (b :: rest)).head? = some b := by
  cases rest with
  | nil =>
    unfold collapseWs
    rw [if_neg (by simp [hb])]
    rfl
  | cons c rest2 =>
    unfold collapseWs
    rw [if_neg (by simp [hb]), if_neg (by simp [hb])]
    rfl

/-- Helper: the collapsed string never has two adjacent whitespace
characters. -/
theorem chain'_collapseWs (l : JsString) :
    List.Chain' (fun x y => ¬ (isJsWs x = true ∧ isJsWs y = true)) (collapseWs l) := by
  induction l with
  | nil => simp [collapseWs]
  | cons a t ih =>
    cases t with
    | nil =>
      unfold collapseWs
      split <;> simp
    | cons b rest =>
      unfold collapseWs
      split
      · exact ih
      · rename_i hab
        rw [List.chain'_cons']
        refine ⟨?_, ih⟩
        intro y hy
        cases hwa : isJsWs a with
        | false =>
          rw [if_neg (by simp [hwa])]
          intro hcontra
          rw [hwa] at hcontra
          cases hcontra.1
        | true =>
          have hwb : isJsWs b = false := by
            cases hwbc : isJsWs b with
            | false => rfl
            | true => exact absurd (by rw [hwa, hwbc]; rfl) hab
          rw [head_collapseWs_of_not_ws b rest hwb] at hy
          simp at hy
          subst hy
          intro hcontra
          rw [hwb] at hcontra
          cases hcontra.2

/-- Helper: collapsing is the identity on strings whose whitespace is all
single spaces with no two adjacent. -/
theorem collapseWs_eq_self (l : JsString)
    (h32 : ∀ c ∈ l, isJsWs c = true → c = 32)
    (hch : List.Chain' (fun x y => ¬ (isJsWs x = true ∧ isJsWs y = true)) l) :
    collapseWs l = l := by
  induction l with
  | nil => rfl
  | cons a t ih =>
    cases t with
    | nil =>
      unfold collapseWs
      split
      · rename_i hwa
        rw [h32 a (List.mem_cons_self a []) hwa]
      · rfl
    | cons b rest =>
      have hab : ¬ (isJsWs a = true ∧ isJsWs b = true) := (List.chain'_cons.mp hch).1
      unfold collapseWs
      rw [if_neg (by simpa [Bool.and_eq_true] using hab)]
      have htail := ih (fun c hc hw => h32 c (List.mem_cons_of_mem a hc) hw)
        (List.chain'_cons.mp hch).2
      rw [htail]
      cases hwa : isJsWs a with
      | false => rw [if_neg (by simp)]
      | true => rw [if_pos rfl, h32 a (List.mem_cons_self a (b :: rest)) hwa]

/-- Helper: collapsing preserves a non-whitespace last character. -/
theorem getLast_collapseWs (l : JsString)
    (hl : ∀ h, l.getLast? = some h → isJsWs h = false) :
    ∀ h, (collapseWs l).getLast? = some h → isJsWs h = false := by
  induction l with
  | nil => intro h hh; cases hh
  | cons a t ih =>
    cases t with
    | nil =>
      intro h hh
      unfold collapseWs at hh
      split at hh
      · rename_i hwa
        exact absurd hwa (by rw [hl a rfl]; simp)
      · simp at hh
        exact hh ▸ hl a rfl
    | cons b rest =>
      have hl' : ∀ h, (b :: rest).getLast? = some h → isJsWs h = false := by
        intro h hh
        exact hl h (by rw [List.getLast?_cons_cons]; exact hh)
      intro h hh
      unfold collapseWs at hh
      split at hh
      · exact ih hl' h hh
      · obtain ⟨e, d, hd⟩ := List.exists_cons_of_ne_nil
          (collapseWs_ne_nil (b :: rest) (List.cons_ne_nil b rest))
        rw [hd, List.getLast?_cons_cons] at hh
        exact ih hl' h (by rw [hd]; exact hh)

/-- Helper: collapsing preserves a non-whitespace first character. -/
theorem head_collapseWs_not_ws (l : JsString)
    (h1 : ∀ h, l.head? = some h → isJsWs h = false) :
    ∀ h, (collapseWs l).head? = some h → isJsWs h = false := by
  cases l with
  | nil => intro h hh; cases hh
  | cons b t =>
    intro h hh
    have hb : isJsWs b = false := h1 b rfl
    rw [head_collapseWs_of_not_ws b t hb] at hh
    simp at hh
    exact hh ▸ hb

/-- C9: `normalizeName` — trim, lowercase, collapse internal whitespace
runs to one space — is idempotent: `normalize(normalize(x)) == normalize(x)`
for every string; illustrated on the string "  Alice   B " which maps to
"alice b". -/
theorem normalizeName_idempotent :
    normalizeName (jsStr "  Alice   B ") = jsStr "alice b" ∧
    ∀ x : JsString, normalizeName (normalizeName x) = normalizeName x := by
  refine ⟨by decide, ?_⟩
  intro x
  have hhead : ∀ h, (normalizeName x).head? = some h → isJsWs h = false := by
    unfold normalizeName
    refine head_collapseWs_not_ws _ ?_
    intro h hh
    rw [List.head?_map] at hh
    rcases Option.map_eq_some'.mp hh with ⟨h0, hh0, hlow⟩
    rw [← hlow, isJsWs_jsToLower]
    exact trimChars_head_not_ws x h0 hh0
  have hlast : ∀ h, (normalizeName x).getLast? = some h → isJsWs h = false := by
    unfold normalizeName
    refine getLast_collapseWs _ ?_
    intro h hh
    rw [List.getLast?_map] at hh
    rcases Option.map_eq_some'.mp hh with ⟨h0, hh0, hlow⟩
    rw [← hlow, isJsWs_jsToLower]
    exact trimChars_getLast_not_ws x h0 hh0
  have hlower : ∀ c ∈ normalizeName x, jsToLower c = c := by
    intro c hc
    rcases mem_collapseWs _ c hc with h32 | hmem
    · subst h32; decide
    · rcases List.mem_map.mp hmem with ⟨c0, _, hlow⟩
      rw [← hlow]
      exact jsToLower_jsToLower c0
  have h32 : ∀ c ∈ normalizeName x, isJsWs c = true → c = 32 := by
    intro c hc hws
    exact collapseWs_ws_eq_32 _ c hc hws
  have hch := chain'_collapseWs ((trimChars x).map jsToLower)
  conv_lhs => rw [normalizeName]
  rw [trimChars_eq_self _ hhead hlast]
  rw [List.map_congr_left hlower, List.map_id']
  exact collapseWs_eq_self _ h32 hch

/-- Helper: top label of the tail stream, shifted. -/
theorem frameTopLabel_cons_succ (f : Frame) (rest : List Frame) (k : Nat) :
    frameTopLabel (f :: rest) (k + 1) = frameTopLabel rest k := by
  simp [frameTopLabel]

/-- Helper: top label of the head frame. -/
theorem frameTopLabel_cons_zero (f : Frame) (rest : List Frame) :
    frameTopLabel (f :: rest) 0 = (topPrediction f.2).map Prediction.className := by
  simp [frameTopLabel]

/-- Helper: timestamp of the tail stream, shifted. -/
theorem frameTime_cons_succ (f : Frame) (rest : List Frame) (k : Nat) :
    frameTime (f :: rest) (k + 1) = frameTime rest k := by
  simp [frameTime]

/-- Helper: timestamp of the head frame. -/
theorem frameTime_cons_zero (f : Frame) (rest : List Frame) :
    frameTime (f :: rest) 0 = f.1 := by
  simp [frameTime]

/-- Helper: from a running scanner already carrying candidate `(L, t0)`, a
stream of frames whose top entry keeps label `L` at or above the threshold
locks at the first frame at least `stableWindowMs` after `t0`: the run ends
in the stopped, locked state with exactly one emitted lock, labelled `L`. -/
theorem runFrames_locks (rest : List Frame) : ∀ (s : ScannerState) (L : JsString) (t0 p0 : ℚ),
    s.isRunning = true →
    s.lastTop = some { name := L, since := t0, prob := p0 } →
    (∀ f ∈ rest, ∃ p, topPrediction f.2 = some p ∧ p.className = L ∧ s.threshold ≤ p.probability) →
    (∃ f ∈ rest, s.stableWindowMs ≤ f.1 - t0) →
    ∃ l, TMScanner.runFrames s rest = (TMScanner.stopState { s with locked := true }, [l]) ∧
      l.className = L := by
  induction rest with
  | nil =>
    rintro s L t0 p0 _ _ _ ⟨f, hf, _⟩
    cases hf
  | cons f rest ih =>
    rintro s L t0 p0 hrun hlt hstream hwin
    obtain ⟨now, preds⟩ := f
    obtain ⟨p, htop, hpL, hpθ⟩ := hstream (now, preds) (List.mem_cons_self _ rest)
    by_cases hw : s.stableWindowMs ≤ now - t0
    · have hlock := TMScanner.loop_lock s preds now p { name := L, since := t0, prob := p0 }
        hrun htop hlt hpL.symm hpθ (by simpa using hw)
      refine ⟨{ className := p.className, prob := p.probability, timestamp := now }, ?_, hpL⟩
      simp only [TMScanner.runFrames]
      rw [hlock]
      simp
    · have hcont := TMScanner.loop_continue s preds now p { name := L, since := t0, prob := p0 }
        hrun htop hlt hpL.symm hpθ (by simpa using hw)
      obtain ⟨l, hrec, hlcl⟩ := ih { s with pending := true } L t0 p0 hrun
        (by simpa using hlt)
        (fun g hg => hstream g (List.mem_cons_of_mem _ hg))
        (by
          obtain ⟨g, hg, hgw⟩ := hwin
          rcases List.mem_cons.mp hg with rfl | hg2
          · exact absurd (by simpa using hgw) hw
          · exact ⟨g, hg2, hgw⟩)
      refine ⟨l, ?_, hlcl⟩
      simp only [TMScanner.runFrames]
      rw [hcont]
      simp only [Option.toList_none, List.nil_append]
      rw [hrec]
      rfl

/-- C1: for every prediction stream whose top-ranked entry keeps the same
label `L` with probability at or above the threshold (exactly-at-threshold
included, the comparison is `>=`) on every frame, with some later frame at
least `stabilityWindow` after the first, the freshly started engine emits
exactly one lock, carrying `L`, and afterwards performs no further
evaluation — the final state is stopped and any further `loop` call returns
immediately with no decision — until a new `start()`. -/
theorem stability_lock_exactly_once (θ W : ℚ) (L : JsString)
    (f0 : Frame) (rest : List Frame) (p0 : Prediction)
    (htop0 : topPrediction f0.2 = some p0) (hp0L : p0.className = L)
    (hp0θ : θ ≤ p0.probability)
    (hstream : ∀ f ∈ rest, ∃ p, topPrediction f.2 = some p ∧ p.className = L ∧
      θ ≤ p.probability)
    (hwin : ∃ f ∈ rest, W ≤ f.1 - f0.1) :
    ∃ l sf, TMScanner.runFrames (TMScanner.startedState θ W) (f0 :: rest) = (sf, [l]) ∧
      l.className = L ∧ sf.isRunning = false ∧
      (∀ predsRes now, TMScanner.loop sf predsRes now =
        Except.ok { state := sf, lockEvent := none, scheduledNext := false,
                    emittedUpdate := false, inferenceErrorReported := false }) := by
  obtain ⟨t0, preds0⟩ := f0
  have hreset := TMScanner.loop_reset_of_none (TMScanner.startedState θ W) preds0 t0 p0
    rfl htop0 rfl
  have hs1lt : (TMScanner.resetOutcome (TMScanner.startedState θ W) p0 t0).state.lastTop =
      some { name := p0.className, since := t0, prob := p0.probability } := by
    simp only [TMScanner.resetOutcome, TMScanner.startedState]
    rw [if_pos hp0θ]
  obtain ⟨l, hrec, hlcl⟩ :=
    runFrames_locks rest (TMScanner.resetOutcome (TMScanner.startedState θ W) p0 t0).state
      p0.className t0 p0.probability rfl hs1lt
      (fun g hg => by
        obtain ⟨p, h1, h2, h3⟩ := hstream g hg
        exact ⟨p, h1, h2.trans hp0L.symm, h3⟩)
      (by
        obtain ⟨g, hg, hgw⟩ := hwin
        exact ⟨g, hg, by simpa using hgw⟩)
  refine ⟨l, TMScanner.stopState
      { (TMScanner.resetOutcome (TMScanner.startedState θ W) p0 t0).state with locked := true },
    ?_, hlcl.trans hp0L, ?_, ?_⟩
  · simp only [TMScanner.runFrames]
    rw [hreset]
    simp only [Option.toList_none, List.nil_append]
    rw [hrec]
    rfl
  · rfl
  · intro predsRes now
    exact TMScanner.loop_not_running _ predsRes now rfl

/-- Helper: the no-long-same-label-span property restricts to the tail of
the stream. -/
theorem noSpan_tail (f : Frame) (rest : List Frame) (W : ℚ)
    (hshort : ∀ j, j < (f :: rest).length → ∀ i, i ≤ j →
      (∀ k, k ≤ j → i ≤ k → frameTopLabel (f :: rest) k = frameTopLabel (f :: rest) i) →
      frameTime (f :: rest) j - frameTime (f :: rest) i < W) :
    ∀ j, j < rest.length → ∀ i, i ≤ j →
      (∀ k, k ≤ j → i ≤ k → frameTopLabel rest k = frameTopLabel rest i) →
      frameTime rest j - frameTime rest i < W := by
  intro j hj i hij hall
  have hres := hshort (j + 1) (by simpa using Nat.succ_lt_succ hj) (i + 1)
    (Nat.succ_le_succ hij) ?_
  · rwa [frameTime_cons_succ, frameTime_cons_succ] at hres
  · intro k hk hik
    cases k with
    | zero => exact absurd hik (Nat.not_succ_le_zero i)
    | succ m =>
      rw [frameTopLabel_cons_succ, frameTopLabel_cons_succ]
      exact hall m (Nat.le_of_succ_le_succ hk) (Nat.le_of_succ_le_succ hik)

/-- Helper: under the no-long-same-label-span property, a candidate whose
label tops the head frame cannot survive, in the tail, to a frame a full
window after the head frame. -/
theorem noSpan_cand (f : Frame) (rest : List Frame) (W : ℚ) (cn : JsString)
    (hlabel0 : frameTopLabel (f :: rest) 0 = some cn)
    (hshort : ∀ j, j < (f :: rest).length → ∀ i, i ≤ j →
      (∀ k, k ≤ j → i ≤ k → frameTopLabel (f :: rest) k = frameTopLabel (f :: rest) i) →
      frameTime (f :: rest) j - frameTime (f :: rest) i < W) :
    ∀ j, j < rest.length → (∀ k, k ≤ j → frameTopLabel rest k = some cn) →
      frameTime rest j - f.1 < W := by
  intro j hj hall
  have hres := hshort (j + 1) (by simpa using Nat.succ_lt_succ hj) 0 (Nat.zero_le _) ?_
  · rwa [frameTime_cons_succ, frameTime_cons_zero] at hres
  · intro k hk _
    cases k with
    | zero => rfl
    | succ m =>
      rw [frameTopLabel_cons_succ, hlabel0]
      exact hall m (Nat.le_of_succ_le_succ hk)

/-- Helper: if no same-top-label span of the stream lasts the stability
window, and the current candidate (if any) likewise cannot reach the window
within the stream, the run never emits a lock. -/
theorem runFrames_no_lock (frames : List Frame) : ∀ (s : ScannerState),
    (∀ lt, s.lastTop = some lt → ∀ j, j < frames.length →
      (∀ k, k ≤ j → frameTopLabel frames k = some lt.name) →
      frameTime frames j - lt.since < s.stableWindowMs) →
    (∀ j, j < frames.length → ∀ i, i ≤ j →
      (∀ k, k ≤ j → i ≤ k → frameTopLabel frames k = frameTopLabel frames i) →
      frameTime frames j - frameTime frames i < s.stableWindowMs) →
    (TMScanner.runFrames s frames).2 = [] := by
  induction frames with
  | nil =>
    intro s _ _
    rfl
  | cons f rest ih =>
    intro s hcand hshort
    obtain ⟨now, preds⟩ := f
    by_cases hrun : s.isRunning = true
    · cases htop : topPrediction preds with
      | none =>
        have hstep : TMScanner.loop s (Except.ok preds) now = Except.error JsError.typeError := by
          unfold TMScanner.loop
          rw [hrun]
          simp [htop]
        simp only [TMScanner.runFrames]
        rw [hstep]
      | some top =>
        have hlabel0 : frameTopLabel ((now, preds) :: rest) 0 = some top.className := by
          rw [frameTopLabel_cons_zero, htop]
          rfl
        cases hlt : s.lastTop with
        | none =>
          have hstep := TMScanner.loop_reset_of_none s preds now top hrun htop hlt
          simp only [TMScanner.runFrames]
          rw [hstep]
          simp only [Option.toList_none, List.nil_append, if_true]
          apply ih
          · intro lt' hlt' j hj hall
            have hform : (TMScanner.resetOutcome s top now).state.lastTop =
                (if s.threshold ≤ top.probability then
                  some { name := top.className, since := now, prob := top.probability }
                 else none) := rfl
            rw [hform] at hlt'
            split at hlt'
            · cases hlt'
              have := noSpan_cand (now, preds) rest s.stableWindowMs top.className
                hlabel0 hshort j hj hall
              simpa using this
            · cases hlt'
          · exact noSpan_tail (now, preds) rest s.stableWindowMs hshort
        | some lt =>
          by_cases hch : lt.name ≠ top.className ∨ top.probability < s.threshold
          · have hstep := TMScanner.loop_reset_of_changed s preds now top lt hrun htop hlt hch
            simp only [TMScanner.runFrames]
            rw [hstep]
            simp only [Option.toList_none, List.nil_append, if_true]
            apply ih
            · intro lt' hlt' j hj hall
              have hform : (TMScanner.resetOutcome s top now).state.lastTop =
                  (if s.threshold ≤ top.probability then
                    some { name := top.className, since := now, prob := top.probability }
                   else none) := rfl
              rw [hform] at hlt'
              split at hlt'
              · cases hlt'
                have := noSpan_cand (now, preds) rest s.stableWindowMs top.className
                  hlabel0 hshort j hj hall
                simpa using this
              · cases hlt'
            · exact noSpan_tail (now, preds) rest s.stableWindowMs hshort
          · push_neg at hch
            obtain ⟨hsame, hθ⟩ := hch
            have hnow : frameTime ((now, preds) :: rest) 0 - lt.since < s.stableWindowMs := by
              apply hcand lt hlt 0 (by simp)
              intro k hk
              have hk0 : k = 0 := Nat.le_zero.mp hk
              subst hk0
              rw [hlabel0, hsame]
            rw [frameTime_cons_zero] at hnow
            have hwin : ¬ s.stableWindowMs ≤ now - lt.since := not_le.mpr hnow
            have hstep := TMScanner.loop_continue s preds now top lt hrun htop hlt hsame hθ hwin
            simp only [TMScanner.runFrames]
            rw [hstep]
            simp only [Option.toList_none, List.nil_append, if_true]
            apply ih
            · intro lt' hlt' j hj hall
              have h2 : some lt = some lt' := by
                rw [← hlt]
                exact hlt'
              obtain rfl : lt = lt' := Option.some.inj h2
              have := hcand lt hlt (j + 1) (by simpa using Nat.succ_lt_succ hj) ?_
              · rwa [frameTime_cons_succ] at this
              · intro k hk
                cases k with
                | zero => rw [hlabel0, hsame]
                | succ m =>
                  rw [frameTopLabel_cons_succ]
                  exact hall m (Nat.le_of_succ_le_succ hk)
            · exact noSpan_tail (now, preds) rest s.stableWindowMs hshort
    · have hstep := TMScanner.loop_not_running s (Except.ok preds) now (by simpa using hrun)
      simp only [TMScanner.runFrames]
      rw [hstep]
      simp

/-- C5: (a) over any prediction stream in which no same-top-label span
lasts the stability window — the top label always changes before the
window elapses — a freshly started engine never emits a lock; (b) on any
evaluation where the top label differs from the current candidate, the
decision is Continue and the StabilityState is reset: the candidate becomes
the new label with streak start `now` when its probability is at or above
threshold, and is cleared otherwise. -/
theorem label_change_resets_no_lock :
    (∀ (θ W : ℚ) (frames : List Frame),
      (∀ j, j < frames.length → ∀ i, i ≤ j →
        (∀ k, k ≤ j → i ≤ k → frameTopLabel frames k = frameTopLabel frames i) →
        frameTime frames j - frameTime frames i < W) →
      (TMScanner.runFrames (TMScanner.startedState θ W) frames).2 = []) ∧
    (∀ (s : ScannerState) (preds : List Prediction) (now : ℚ)
        (top : Prediction) (lt : LastTop),
      s.isRunning = true → s.lastTop = some lt →
      topPrediction preds = some top → lt.name ≠ top.className →
      TMScanner.loop s (Except.ok preds) now = Except.ok (TMScanner.resetOutcome s top now) ∧
      (TMScanner.resetOutcome s top now).lockEvent = none ∧
      (TMScanner.resetOutcome s top now).state.lastTop =
        (if s.threshold ≤ top.probability then
          some { name := top.className, since := now, prob := top.probability }
         else none)) := by
  constructor
  · intro θ W frames hshort
    exact runFrames_no_lock frames (TMScanner.startedState θ W)
      (fun lt hlt => Option.noConfusion hlt) hshort
  · intro s preds now top lt hrun hlt htop hne
    exact ⟨TMScanner.loop_reset_of_changed s preds now top lt hrun htop hlt (Or.inl hne),
      rfl, rfl⟩

/-- Witness for `label_change_resets_no_lock`: an alternating cat/dog
stream in the spirit of Scenario B (a dog frame 500 ms after the cat frame,
window 1000 ms) yields no lock, and a dog frame against a cat candidate
resets the state. -/
theorem label_change_resets_no_lock_witness :
    (TMScanner.runFrames (TMScanner.startedState (98 / 100) 1000)
        [((0 : ℚ), [{ className := [99, 97, 116], probability := 99 / 100 }]),
         ((500 : ℚ), [{ className := [100, 111, 103], probability := 99 / 100 }])]).2 = [] ∧
    (TMScanner.loop
        { isRunning := true, locked := false,
          lastTop := some { name := [99, 97, 116], since := 0, prob := 99 / 100 },
          webcamHeld := true, pending := true,
          threshold := 98 / 100, stableWindowMs := 1000 }
        (Except.ok [{ className := [100, 111, 103], probability := 99 / 100 }]) 500 =
      Except.ok (TMScanner.resetOutcome
        { isRunning := true, locked := false,
          lastTop := some { name := [99, 97, 116], since := 0, prob := 99 / 100 },
          webcamHeld := true, pending := true,
          threshold := 98 / 100, stableWindowMs := 1000 }
        { className := [100, 111, 103], probability := 99 / 100 } 500) ∧
      (TMScanner.resetOutcome
        { isRunning := true, locked := false,
          lastTop := some { name := [99, 97, 116], since := 0, prob := 99 / 100 },
          webcamHeld := true, pending := true,
          threshold := 98 / 100, stableWindowMs := 1000 }
        { className := [100, 111, 103], probability := 99 / 100 } 500).lockEvent = none ∧
      (TMScanner.resetOutcome
        { isRunning := true, locked := false,
          lastTop := some { name := [99, 97, 116], since := 0, prob := 99 / 100 },
          webcamHeld := true, pending := true,
          threshold := 98 / 100, stableWindowMs := 1000 }
        { className := [100, 111, 103], probability := 99 / 100 } 500).state.lastTop =
        (if (98 / 100 : ℚ) ≤ (99 / 100 : ℚ) then
          some { name := [100, 111, 103], since := 500, prob := 99 / 100 }
         else none)) :=
  ⟨label_change_resets_no_lock.1 (98 / 100) 1000
      [((0 : ℚ), [{ className := [99, 97, 116], probability := 99 / 100 }]),
       ((500 : ℚ), [{ className := [100, 111, 103], probability := 99 / 100 }])]
      (by
        intro j hj i hij hall
        have hj2 : j < 2 := by simpa using hj
        interval_cases j <;> interval_cases i <;> norm_num [frameTime]),
   label_change_resets_no_lock.2
      { isRunning := true, locked := false,
        lastTop := some { name := [99, 97, 116], since := 0, prob := 99 / 100 },
        webcamHeld := true, pending := true,
        threshold := 98 / 100, stableWindowMs := 1000 }
      [{ className := [100, 111, 103], probability := 99 / 100 }] 500
      { className := [100, 111, 103], probability := 99 / 100 }
      { name := [99, 97, 116], since := 0, prob := 99 / 100 }
      rfl rfl rfl (by decide)⟩

/-- Witness for `stability_lock_exactly_once`: Scenario A — a constant cat
stream at 99 % with frames at 0, 500 and 1100 ms, threshold 98 %, window
1000 ms — produces exactly one cat lock and a halted scanner. -/
theorem stability_lock_exactly_once_witness :
    ∃ l sf, TMScanner.runFrames (TMScanner.startedState (98 / 100) 1000)
        (((0 : ℚ), [{ className := [99, 97, 116], probability := 99 / 100 }]) ::
          [((500 : ℚ), [{ className := [99, 97, 116], probability := 99 / 100 }]),
           ((1100 : ℚ), [{ className := [99, 97, 116], probability := 99 / 100 }])]) =
        (sf, [l]) ∧
      l.className = [99, 97, 116] ∧ sf.isRunning = false ∧
      (∀ predsRes now, TMScanner.loop sf predsRes now =
        Except.ok { state := sf, lockEvent := none, scheduledNext := false,
                    emittedUpdate := false, inferenceErrorReported := false }) :=
  stability_lock_exactly_once (98 / 100) 1000 [99, 97, 116]
    ((0 : ℚ), [{ className := [99, 97, 116], probability := 99 / 100 }])
    [((500 : ℚ), [{ className := [99, 97, 116], probability := 99 / 100 }]),
     ((1100 : ℚ), [{ className := [99, 97, 116], probability := 99 / 100 }])]
    { className := [99, 97, 116], probability := 99 / 100 }
    rfl rfl (by norm_num)
    (by
      intro f hf
      rcases List.mem_cons.mp hf with rfl | hf2
      · exact ⟨_, rfl, rfl, by norm_num⟩
      rcases List.mem_cons.mp hf2 with rfl | hf3
      · exact ⟨_, rfl, rfl, by norm_num⟩
      cases hf3)
    ⟨((1100 : ℚ), [{ className := [99, 97, 116], probability := 99 / 100 }]),
      List.mem_cons_of_mem _ (List.mem_cons_self _ _), by norm_num⟩

/-- Witness for `no_lock_on_establishing_call`: a first qualifying cat
frame on a fresh scanner whose stability window is zero still yields
Continue, with the streak start set to the call's timestamp. -/
theorem no_lock_on_establishing_call_witness :
    TMScanner.loop (TMScanner.startedState (98 / 100) 0)
        (Except.ok [{ className := [99, 97, 116], probability := 99 / 100 }]) 5 =
      Except.ok (TMScanner.resetOutcome (TMScanner.startedState (98 / 100) 0)
        { className := [99, 97, 116], probability := 99 / 100 } 5) ∧
    (TMScanner.resetOutcome (TMScanner.startedState (98 / 100) 0)
        { className := [99, 97, 116], probability := 99 / 100 } 5).lockEvent = none ∧
    (TMScanner.resetOutcome (TMScanner.startedState (98 / 100) 0)
        { className := [99, 97, 116], probability := 99 / 100 } 5).scheduledNext = true ∧
    ∀ lt, (TMScanner.resetOutcome (TMScanner.startedState (98 / 100) 0)
        { className := [99, 97, 116], probability := 99 / 100 } 5).state.lastTop = some lt →
      lt.since = 5 :=
  no_lock_on_establishing_call (TMScanner.startedState (98 / 100) 0)
    [{ className := [99, 97, 116], probability := 99 / 100 }] 5
    { className := [99, 97, 116], probability := 99 / 100 }
    rfl rfl (Or.inl rfl)
